import Mathlib

/-!
# OHAP Python SDK — shallow embedding and verification

This file embeds the core of the OHAP Python SDK
(`python/ohap/validator.py` and `python/ohap/client.py`) in Lean 4 and
proves properties about the embedded definitions.

Modelling conventions:
* Python dictionaries are association lists `List (String × PyVal)` with
  unique keys; `dget` is `dict.get(k)` returning `Option.none` when the key
  is absent (a key present with value `None` is `some PyVal.none`).
* `raise ValueError(msg)` in a validator is modelled as
  `Except.error msg`; falling through to the end (Python returns `None`)
  is `Except.ok ()`.
* The nondeterministic inputs of the client (`time.time()`, `random.choices`,
  `datetime.utcnow()`) are passed in explicitly as a `GenEnv` value.
* A client workflow operation either fails locally (a raised exception
  before any I/O) or issues exactly one HTTP request; this outcome is of
  type `ClientStep`.  Because Python's `task["id"] = ...` mutates the very
  dictionary the caller passed in, the value the caller's variable holds
  after the call is the *filled* dictionary (`fillTaskDefaults` etc.),
  whether or not validation subsequently fails.
-/

namespace OHAP

/-- Dynamic (JSON-like) Python values as they occur in the SDK's
dictionaries: strings, numbers, dicts, lists, and `None`. -/
inductive PyVal where
  | str (s : String)
  | num (n : Int)
  | dict (entries : List (String × PyVal))
  | list (elems : List PyVal)
  | none

/-- A Python dictionary with string keys, as an association list
(first occurrence of a key wins; insertion appends at the end, matching
CPython's preservation of insertion order). -/
abbrev Dict := List (String × PyVal)

/-- `d.get(k)`: `Option.none` when the key is absent. -/
def dget : Dict → String → Option PyVal
  | [], _ => Option.none
  | (k', v) :: rest, k => if k = k' then some v else dget rest k

/-- Python truthiness of a value (`bool(v)`). -/
def PyVal.truthy : PyVal → Bool
  | .str s => decide (s ≠ "")
  | .num n => decide (n ≠ 0)
  | .dict d => !d.isEmpty
  | .list l => !l.isEmpty
  | .none => false

/-- Truthiness of the result of a `.get`: an absent key is falsy
(`not d.get(k)` is true). -/
def truthyOpt : Option PyVal → Bool
  | Option.none => false
  | some v => v.truthy

/-- `isinstance(d.get(k), str)`. -/
def isStrOpt : Option PyVal → Bool
  | some (.str _) => true
  | _ => false

/-- Length used in `len(d.get(k, ""))`: only evaluated on branches where
the value is known to be a string; absent keys default to `""`. -/
def strLenD : Option PyVal → Nat
  | some (.str s) => s.length
  | _ => 0

/-- `not isinstance(d.get(k), str) or not d.get(k)` negated: the field is
present, a string, and non-empty. -/
def strFieldNonEmpty (d : Dict) (k : String) : Bool :=
  isStrOpt (dget d k) && truthyOpt (dget d k)

/-- `isinstance(e, dict) and e.get("id")` for a nested actor value
(`initiator` / `proposer` / `submitter` / `reviewer`). -/
def entityOk : Option PyVal → Bool
  | some (.dict d) => truthyOpt (dget d "id")
  | _ => false

/-! ## Validator (`python/ohap/validator.py`)

Each Python validator is a sequence of `if cond: raise ValueError(msg)`
statements; the embedding checks the same conditions in the same order and
returns the first error's message, or `Except.ok ()` when every check
passes.  The individual conditions are broken out as named `Bool`
definitions, each the (negation of the) condition of one `if`. -/

/-- Task check: `isinstance(task.get("id"), str) and task.get("id")`. -/
def taskIdCheck (t : Dict) : Bool := strFieldNonEmpty t "id"

/-- Task check: `isinstance(task.get("title"), str) and len(task.get("title", "")) >= 3`. -/
def taskTitleCheck (t : Dict) : Bool :=
  isStrOpt (dget t "title") && decide (3 ≤ strLenD (dget t "title"))

/-- Task check: `isinstance(task.get("objective"), str) and len(task.get("objective", "")) >= 10`. -/
def taskObjectiveCheck (t : Dict) : Bool :=
  isStrOpt (dget t "objective") && decide (10 ≤ strLenD (dget t "objective"))

/-- Task check: `isinstance(initiator, dict) and initiator.get("id")`. -/
def taskInitiatorCheck (t : Dict) : Bool := entityOk (dget t "initiator")

/-- `validate_task` from `validator.py`: raises (returns `.error`) at the
first violated rule, otherwise returns `None` (`.ok ()`). -/
def validate_task (task : Dict) : Except String Unit :=
  if ¬ taskIdCheck task then .error "Task must have a valid id"
  else if ¬ taskTitleCheck task then .error "Task title must be at least 3 characters"
  else if ¬ taskObjectiveCheck task then .error "Task objective must be at least 10 characters"
  else if ¬ taskInitiatorCheck task then .error "Task must have a valid initiator"
  else .ok ()

/-- Proposal check: `isinstance(proposal.get("id"), str) and proposal.get("id")`. -/
def proposalIdCheck (p : Dict) : Bool := strFieldNonEmpty p "id"

/-- Proposal check: `proposal.get("task_id") or proposal.get("taskId")` —
the code accepts either spelling of the task reference. -/
def taskRefCheck (p : Dict) : Bool :=
  truthyOpt (dget p "task_id") || truthyOpt (dget p "taskId")

/-- Proposal check: `isinstance(proposer, dict) and proposer.get("id")`. -/
def proposerCheck (p : Dict) : Bool := entityOk (dget p "proposer")

/-- `proposal.get("approach", "")`: the key's value, defaulting to `""`
when the key is absent. -/
def approachVal (p : Dict) : PyVal :=
  match dget p "approach" with
  | Option.none => .str ""
  | some v => v

/-- Proposal check: `isinstance(approach, str) and len(approach) >= 20`. -/
def approachCheck (p : Dict) : Bool :=
  match approachVal p with
  | .str s => decide (20 ≤ s.length)
  | _ => false

/-- Proposal check: `isinstance(timeline, dict) and timeline.get("estimated_completion")`. -/
def timelineCheck (p : Dict) : Bool :=
  match dget p "timeline" with
  | some (.dict d) => truthyOpt (dget d "estimated_completion")
  | _ => false

/-- `validate_proposal` from `validator.py`. -/
def validate_proposal (p : Dict) : Except String Unit :=
  if ¬ proposalIdCheck p then .error "Proposal must have a valid id"
  else if ¬ taskRefCheck p then .error "Proposal must reference a task"
  else if ¬ proposerCheck p then .error "Proposal must have a valid proposer"
  else if ¬ approachCheck p then .error "Proposal approach must be at least 20 characters"
  else if ¬ timelineCheck p then .error "Proposal must have an estimated completion date"
  else .ok ()

/-- Deliverable check: `isinstance(deliverable.get("id"), str) and deliverable.get("id")`. -/
def deliverableIdCheck (d : Dict) : Bool := strFieldNonEmpty d "id"

/-- Deliverable check: `deliverable.get("task_id")`. -/
def deliverableTaskRefCheck (d : Dict) : Bool := truthyOpt (dget d "task_id")

/-- Deliverable check: `deliverable.get("contract_id")`. -/
def contractRefCheck (d : Dict) : Bool := truthyOpt (dget d "contract_id")

/-- Deliverable check: `isinstance(submitter, dict) and submitter.get("id")`. -/
def submitterCheck (d : Dict) : Bool := entityOk (dget d "submitter")

/-- Deliverable check: `artifacts = deliverable.get("artifacts", [])` is a
non-empty list. -/
def artifactsCheck (d : Dict) : Bool :=
  match dget d "artifacts" with
  | Option.none => false
  | some (.list l) => !l.isEmpty
  | some _ => false

/-- Deliverable check: `isinstance(evidence, dict)`. -/
def evidenceIsDict (d : Dict) : Bool :=
  match dget d "evidence" with
  | some (.dict _) => true
  | _ => false

/-- Deliverable check: `evidence.get("items", [])` is a non-empty list
(only evaluated once `evidence` is known to be a dict). -/
def evidenceItemsCheck (d : Dict) : Bool :=
  match dget d "evidence" with
  | some (.dict e) =>
      match dget e "items" with
      | Option.none => false
      | some (.list l) => !l.isEmpty
      | some _ => false
  | _ => false

/-- `validate_deliverable` from `validator.py`. -/
def validate_deliverable (d : Dict) : Except String Unit :=
  if ¬ deliverableIdCheck d then .error "Deliverable must have a valid id"
  else if ¬ deliverableTaskRefCheck d then .error "Deliverable must reference a task"
  else if ¬ contractRefCheck d then .error "Deliverable must reference a contract"
  else if ¬ submitterCheck d then .error "Deliverable must have a valid submitter"
  else if ¬ artifactsCheck d then .error "Deliverable must have at least one artifact"
  else if ¬ evidenceIsDict d then .error "Deliverable must have evidence data"
  else if ¬ evidenceItemsCheck d then .error "Deliverable must have at least one evidence item"
  else .ok ()

/-- Review check: `isinstance(review.get("id"), str) and review.get("id")`. -/
def reviewIdCheck (r : Dict) : Bool := strFieldNonEmpty r "id"

/-- Review check: `review.get("deliverable_id")`. -/
def deliverableRefCheck (r : Dict) : Bool := truthyOpt (dget r "deliverable_id")

/-- Review check: `isinstance(reviewer, dict) and reviewer.get("id")`. -/
def reviewerCheck (r : Dict) : Bool := entityOk (dget r "reviewer")

/-- Review check: `review.get("decision")` — mere truthiness, no membership
test against the `ReviewDecision` literal set. -/
def decisionCheck (r : Dict) : Bool := truthyOpt (dget r "decision")

/-- `validate_review` from `validator.py`. -/
def validate_review (r : Dict) : Except String Unit :=
  if ¬ reviewIdCheck r then .error "Review must have a valid id"
  else if ¬ deliverableRefCheck r then .error "Review must reference a deliverable"
  else if ¬ reviewerCheck r then .error "Review must have a valid reviewer"
  else if ¬ decisionCheck r then .error "Review must have a decision"
  else .ok ()

/-- The entity kinds the SDK validates. -/
inductive EntityKind where
  | task | proposal | deliverable | review
deriving DecidableEq, Repr

/-- Kind-dispatching validator, `validate(entityKind, candidate)`. -/
def validate : EntityKind → Dict → Except String Unit
  | .task, c => validate_task c
  | .proposal, c => validate_proposal c
  | .deliverable, c => validate_deliverable c
  | .review, c => validate_review c

/-- `True` when the validator accepted the candidate. -/
def passes : Except String Unit → Bool
  | .ok _ => true
  | .error _ => false

/-- The closed `ReviewDecision` literal set of `python/ohap/types.py`. -/
def reviewDecisions : List String :=
  ["accepted", "rejected", "revision-requested", "escalated"]

/-! ## Client workflow operations (`python/ohap/client.py`)

`OHAPClient.create_task` / `submit_proposal` / `submit_deliverable` /
`submit_review` each (1) fill defaults into the caller's dictionary *in
place*, (2) run the matching validator when `self.validate_schemas` is
true, and (3) hand the (same, now filled) dictionary to
`self._request(...)`, which performs the HTTP `POST`.
`accept_proposal` performs no local step at all before `_request`. -/

/-- `_generate_id`: `f"{prefix}-{timestamp}-{random_part}"` with
`timestamp = int(time.time() * 1000)`. -/
def generate_id (pre : String) (timestampMs : Nat) (randomPart : String) : String :=
  pre ++ "-" ++ Nat.repr timestampMs ++ "-" ++ randomPart

/-- The alphabet `string.ascii_lowercase + string.digits` that
`_generate_id` draws the random suffix from. -/
def idAlphabet : List Char := "abcdefghijklmnopqrstuvwxyz0123456789".toList

/-- `''.join(random.choices(alphabet, k=9))`, with the drawn characters
passed in explicitly. -/
def idRandomPart (choices : List Char) : String := String.mk choices

/-- The ambient nondeterministic inputs of one client call: the clock
readings and the characters drawn by `random.choices`. -/
structure GenEnv where
  /-- `int(time.time() * 1000)` at the moment `_generate_id` runs. -/
  nowMs : Nat
  /-- the nine characters drawn by `random.choices(..., k=9)`. -/
  randomChoices : List Char
  /-- `datetime.utcnow().isoformat() + "Z"` from `_now`. -/
  nowIso : String

/-- `if k not in d: d[k] = v` — insert only when the key is absent
(CPython appends a fresh key at the end of the iteration order). -/
def setdefault (c : Dict) (k : String) (v : PyVal) : Dict :=
  if (dget c k).isSome then c else c ++ [(k, v)]

/-- The default-filling prologue of `create_task`: id (prefix `"task"`),
`version = "0.1"`, `status = "draft"`, `created_at`.  The Python code
performs these as in-place updates on the caller's dictionary, so this is
also the value the caller's variable holds after the call. -/
def fillTaskDefaults (task : Dict) (env : GenEnv) : Dict :=
  let t := setdefault task "id"
    (.str (generate_id "task" env.nowMs (idRandomPart env.randomChoices)))
  let t := setdefault t "version" (.str "0.1")
  let t := setdefault t "status" (.str "draft")
  setdefault t "created_at" (.str env.nowIso)

/-- The default-filling prologue of `submit_proposal`: id (prefix
`"prop"`), `status = "submitted"`, `created_at`. -/
def fillProposalDefaults (p : Dict) (env : GenEnv) : Dict :=
  let t := setdefault p "id"
    (.str (generate_id "prop" env.nowMs (idRandomPart env.randomChoices)))
  let t := setdefault t "status" (.str "submitted")
  setdefault t "created_at" (.str env.nowIso)

/-- The default-filling prologue of `submit_deliverable`: id (prefix
`"deliv"`), `status = "submitted"`, `submitted_at`. -/
def fillDeliverableDefaults (d : Dict) (env : GenEnv) : Dict :=
  let t := setdefault d "id"
    (.str (generate_id "deliv" env.nowMs (idRandomPart env.randomChoices)))
  let t := setdefault t "status" (.str "submitted")
  setdefault t "submitted_at" (.str env.nowIso)

/-- The default-filling prologue of `submit_review`: id (prefix `"rev"`)
and `reviewed_at` only — no status default. -/
def fillReviewDefaults (r : Dict) (env : GenEnv) : Dict :=
  let t := setdefault r "id"
    (.str (generate_id "rev" env.nowMs (idRandomPart env.randomChoices)))
  setdefault t "reviewed_at" (.str env.nowIso)

/-- One HTTP request as `_request` would issue it: method, path below the
base URL, and the JSON body (the entity dictionary), if any. -/
structure HttpRequest where
  method : String
  path : String
  body : Option Dict

/-- The caller-observable outcome of the local part of a client
operation: either a raised exception before any I/O (`localError`, the
`ValueError` message) or the single HTTP request handed to the
transport. -/
inductive ClientStep where
  | localError (msg : String)
  | request (r : HttpRequest)

/-- Whether the operation failed locally before any network activity. -/
def ClientStep.isLocalError : ClientStep → Bool
  | .localError _ => true
  | .request _ => false

/-- `OHAPClient.create_task`: fill defaults, validate when
`validate_schemas` is set, then `POST /tasks` with the filled dict. -/
def create_task (validateSchemas : Bool) (task : Dict) (env : GenEnv) : ClientStep :=
  let t := fillTaskDefaults task env
  if validateSchemas then
    match validate_task t with
    | .error e => .localError e
    | .ok _ => .request ⟨"POST", "/tasks", some t⟩
  else
    .request ⟨"POST", "/tasks", some t⟩

/-- `OHAPClient.submit_proposal`. -/
def submit_proposal (validateSchemas : Bool) (p : Dict) (env : GenEnv) : ClientStep :=
  let t := fillProposalDefaults p env
  if validateSchemas then
    match validate_proposal t with
    | .error e => .localError e
    | .ok _ => .request ⟨"POST", "/proposals", some t⟩
  else
    .request ⟨"POST", "/proposals", some t⟩

/-- `OHAPClient.submit_deliverable`. -/
def submit_deliverable (validateSchemas : Bool) (d : Dict) (env : GenEnv) : ClientStep :=
  let t := fillDeliverableDefaults d env
  if validateSchemas then
    match validate_deliverable t with
    | .error e => .localError e
    | .ok _ => .request ⟨"POST", "/deliverables", some t⟩
  else
    .request ⟨"POST", "/deliverables", some t⟩

/-- `OHAPClient.submit_review`. -/
def submit_review (validateSchemas : Bool) (r : Dict) (env : GenEnv) : ClientStep :=
  let t := fillReviewDefaults r env
  if validateSchemas then
    match validate_review t with
    | .error e => .localError e
    | .ok _ => .request ⟨"POST", "/reviews", some t⟩
  else
    .request ⟨"POST", "/reviews", some t⟩

/-- `OHAPClient.accept_proposal`: the whole body is a single
`self._request("POST", f"/proposals/{proposal_id}/accept", ...)` — it
inspects no proposal state and can never fail locally. -/
def accept_proposal (proposal_id : String) : ClientStep :=
  .request ⟨"POST", "/proposals/" ++ proposal_id ++ "/accept", Option.none⟩

/-- The spec's identifier pattern
`<kind-prefix>-<millisecond-timestamp>-<9-char-random-suffix>` with the
suffix drawn from lowercase letters and digits.  (Stated from the spec's
words, to be compared with `generate_id`.) -/
def matchesIdPattern (pre : String) (s : String) : Prop :=
  ∃ (ts : Nat) (suffix : List Char),
    s = pre ++ "-" ++ Nat.repr ts ++ "-" ++ String.mk suffix ∧
    suffix.length = 9 ∧ ∀ c ∈ suffix, c ∈ idAlphabet

/-! ## Concrete candidates used in counterexamples and witnesses -/

/-- A fully well-formed Proposal whose `status` is `"rejected"`. -/
def rejectedProposal : Dict :=
  [("id", .str "prop-1"), ("task_id", .str "task-1"),
   ("proposer", .dict [("id", .str "h1"), ("type", .str "human")]),
   ("approach", .str "I will deliver a complete logo design package."),
   ("timeline", .dict [("estimated_completion", .str "2026-02-18T17:00:00Z")]),
   ("status", .str "rejected"), ("created_at", .str "2026-01-01T00:00:00Z")]

/-- The dictionary named `valid_task` in the repository's own test
`tests/test_client.py::TestValidation::test_validate_task` (no `id`). -/
def repoTestValidTask : Dict :=
  [("title", .str "Test"), ("objective", .str "Test"),
   ("initiator", .dict [("id", .str "a"), ("type", .str "agent")])]

/-- A Task violating both the title rule (2 < 3 chars) and the objective
rule (5 < 10 chars) at once. -/
def doublyInvalidTask : Dict :=
  [("id", .str "t1"), ("title", .str "ab"), ("objective", .str "short"),
   ("initiator", .dict [("id", .str "a")])]

/-- A Task whose title is too short but all other fields are valid. -/
def invalidShortTitleTask : Dict :=
  [("title", .str "ab"), ("objective", .str "long enough objective"),
   ("initiator", .dict [("id", .str "a")])]

/-- A Proposal with an empty `id` *and* an `approach` shorter than 20
characters. -/
def shortApproachBadIdProposal : Dict :=
  [("id", .str ""), ("task_id", .str "task-1"),
   ("proposer", .dict [("id", .str "h1")]),
   ("approach", .str "too short"),
   ("timeline", .dict [("estimated_completion", .str "2026-02-18T17:00:00Z")])]

/-- A Proposal valid in every field except an `approach` of 9 < 20
characters. -/
def shortApproachProposal : Dict :=
  [("id", .str "prop-2"), ("task_id", .str "task-1"),
   ("proposer", .dict [("id", .str "h1")]),
   ("approach", .str "too short"),
   ("timeline", .dict [("estimated_completion", .str "2026-02-18T17:00:00Z")])]

/-- A Review whose `decision` value `"banana"` lies outside the
`ReviewDecision` literal set. -/
def bananaReview : Dict :=
  [("id", .str "rev-1"), ("deliverable_id", .str "deliv-1"),
   ("reviewer", .dict [("id", .str "a1")]), ("decision", .str "banana"),
   ("reviewed_at", .str "2026-01-01T00:00:00Z")]

/-- A Review with the legitimate decision `"accepted"`. -/
def acceptedReview : Dict :=
  [("id", .str "rev-2"), ("deliverable_id", .str "deliv-1"),
   ("reviewer", .dict [("id", .str "a1")]), ("decision", .str "accepted"),
   ("reviewed_at", .str "2026-01-01T00:00:00Z")]

/-- A Proposal that spells the task reference `taskId` and has no
`task_id` key. -/
def camelCaseProposal : Dict :=
  [("id", .str "prop-3"), ("taskId", .str "task-9"),
   ("proposer", .dict [("id", .str "h1")]),
   ("approach", .str "I will create three concept directions"),
   ("timeline", .dict [("estimated_completion", .str "2026-02-18T17:00:00Z")])]

/-- A malformed Task (empty `title`, empty `objective`, empty `initiator`
dict) that nevertheless already carries all four defaulted keys, so
default filling leaves it untouched. -/
def emptyTitleTask : Dict :=
  [("id", .str "task-1"), ("version", .str "0.1"), ("status", .str "draft"),
   ("created_at", .str "2026-01-01T00:00:00Z"), ("title", .str ""),
   ("objective", .str ""), ("initiator", .dict [])]

/-- A concrete environment: clock at 1234 ms, nine drawn characters, one
ISO timestamp. -/
def sampleEnv : GenEnv :=
  ⟨1234, "abc123xyz".toList, "2026-01-01T00:00:00Z"⟩

/-! ## Dictionary lemmas -/

lemma dget_append_of_some {c : Dict} {k : String} {v : PyVal} (d : Dict)
    (h : dget c k = some v) : dget (c ++ d) k = some v := by
  induction c with
  | nil => simp [dget] at h
  | cons hd tl ih =>
    obtain ⟨k', v'⟩ := hd
    by_cases hk : k = k'
    · simpa [dget, hk] using h
    · simp only [dget, hk, if_false, List.cons_append] at h ⊢
      exact ih h

lemma dget_append_of_none {c : Dict} {k : String} (d : Dict)
    (h : dget c k = Option.none) : dget (c ++ d) k = dget d k := by
  induction c with
  | nil => simp
  | cons hd tl ih =>
    obtain ⟨k', v'⟩ := hd
    by_cases hk : k = k'
    · simp [dget, hk] at h
    · simp only [dget, hk, if_false, List.cons_append] at h ⊢
      exact ih h

/-- `setdefault` leaves a dictionary that already has the key untouched. -/
lemma setdefault_of_isSome {c : Dict} {k : String} {v : PyVal}
    (h : (dget c k).isSome) : setdefault c k v = c := by
  simp [setdefault, h]

/-- `setdefault` never changes an existing binding (of any key). -/
lemma dget_setdefault_of_some {c : Dict} {k k' : String} {v x : PyVal}
    (h : dget c k = some v) : dget (setdefault c k' x) k = some v := by
  unfold setdefault
  split
  · exact h
  · exact dget_append_of_some _ h

/-- When the key is absent, `setdefault` binds it to the given value. -/
lemma dget_setdefault_self {c : Dict} {k : String} {x : PyVal}
    (h : dget c k = Option.none) : dget (setdefault c k x) k = some x := by
  unfold setdefault
  rw [if_neg (by simp [h])]
  rw [dget_append_of_none _ h]
  simp [dget]

/-- `setdefault` on one key does not affect lookups of a different key. -/
lemma dget_setdefault_of_ne {c : Dict} {k k' : String} {x : PyVal}
    (hne : k ≠ k') : dget (setdefault c k' x) k = dget c k := by
  unfold setdefault
  split
  · rfl
  · cases h : dget c k with
    | none => rw [dget_append_of_none _ h]; simp [dget, hne]
    | some v => exact dget_append_of_some _ h

/-! ## Claims -/

/-- C1, counterexample: a Proposal in `rejected` status does *not* make
`accept_proposal` fail locally with an InvalidTransition — the operation
never looks at the proposal's state and goes straight to the network,
issuing `POST /proposals/prop-1/accept`. -/
theorem c1_counterexample_rejected_proposal_not_failed_locally :
    dget rejectedProposal "status" = some (.str "rejected") ∧
    (accept_proposal "prop-1").isLocalError = false ∧
    accept_proposal "prop-1" =
      .request ⟨"POST", "/proposals/prop-1/accept", Option.none⟩ :=
  ⟨rfl, rfl, rfl⟩

/-- C1, amended: `accept_proposal` performs no local lifecycle check at
all.  For every proposal id — whatever the status of the proposal it
denotes — it issues exactly the bodyless `POST /proposals/{id}/accept`
request and never fails locally; transition enforcement and the content
of the returned Contract are entirely the Gateway's. -/
theorem c1_accept_proposal_is_bare_request (pid : String) :
    accept_proposal pid =
      .request ⟨"POST", "/proposals/" ++ pid ++ "/accept", Option.none⟩ :=
  rfl

/-- C2 (the claim is right, the code is wrong): the validators raise a
`ValueError` at the first violated rule instead of returning a list of
ValidationErrors.  On the repository's own test input `valid_task` (which
has no `id`) validation throws rather than returning a list, and when two
rules are violated at once only the first is ever reported — the report is
partial, never a complete collection. -/
theorem c2_validator_raises_single_first_error :
    validate .task repoTestValidTask = .error "Task must have a valid id" ∧
    validate .task doublyInvalidTask =
      .error "Task title must be at least 3 characters" :=
  ⟨rfl, rfl⟩

/-- C3: with schema validation enabled, each of the four workflow
operations reports a validation failure locally *before* any network
request is issued — when the validator rejects the (default-filled)
candidate the outcome is exactly that local error, and conversely a
request can only be issued once the validator accepted the candidate, so
a failing candidate never reaches the Gateway. -/
theorem c3_validation_failure_precedes_network :
    (∀ c env e, validate_task (fillTaskDefaults c env) = .error e →
        create_task true c env = .localError e) ∧
    (∀ c env r, create_task true c env = .request r →
        validate_task (fillTaskDefaults c env) = .ok ()) ∧
    (∀ c env e, validate_proposal (fillProposalDefaults c env) = .error e →
        submit_proposal true c env = .localError e) ∧
    (∀ c env r, submit_proposal true c env = .request r →
        validate_proposal (fillProposalDefaults c env) = .ok ()) ∧
    (∀ c env e, validate_deliverable (fillDeliverableDefaults c env) = .error e →
        submit_deliverable true c env = .localError e) ∧
    (∀ c env r, submit_deliverable true c env = .request r →
        validate_deliverable (fillDeliverableDefaults c env) = .ok ()) ∧
    (∀ c env e, validate_review (fillReviewDefaults c env) = .error e →
        submit_review true c env = .localError e) ∧
    (∀ c env r, submit_review true c env = .request r →
        validate_review (fillReviewDefaults c env) = .ok ()) := by
  refine ⟨?_, ?_, ?_, ?_, ?_, ?_, ?_, ?_⟩
  · intro c env e h; simp [create_task, h]
  · intro c env r h
    cases hv : validate_task (fillTaskDefaults c env) with
    | error e => simp [create_task, hv] at h
    | ok u => cases u; rfl
  · intro c env e h; simp [submit_proposal, h]
  · intro c env r h
    cases hv : validate_proposal (fillProposalDefaults c env) with
    | error e => simp [submit_proposal, hv] at h
    | ok u => cases u; rfl
  · intro c env e h; simp [submit_deliverable, h]
  · intro c env r h
    cases hv : validate_deliverable (fillDeliverableDefaults c env) with
    | error e => simp [submit_deliverable, hv] at h
    | ok u => cases u; rfl
  · intro c env e h; simp [submit_review, h]
  · intro c env r h
    cases hv : validate_review (fillReviewDefaults c env) with
    | error e => simp [submit_review, hv] at h
    | ok u => cases u; rfl

/-- C3, witness: the too-short-title Task is stopped locally with the
title error; no request is produced. -/
theorem c3_witness :
    create_task true invalidShortTitleTask sampleEnv =
      ClientStep.localError "Task title must be at least 3 characters" :=
  c3_validation_failure_precedes_network.1 invalidShortTitleTask sampleEnv _ rfl

/-- C4, counterexample: a Proposal whose `approach` is 9 < 20 characters
but whose `id` is empty is rejected with the *id* error, not an error on
`approach` — the raise-at-first-failure validator masks the approach
violation, so the claim "fails on `approach` regardless of other fields'
validity" is false as stated. -/
theorem c4_counterexample_id_error_masks_short_approach :
    dget shortApproachBadIdProposal "approach" = some (.str "too short") ∧
    "too short".length < 20 ∧
    validate .proposal shortApproachBadIdProposal =
      .error "Proposal must have a valid id" :=
  ⟨rfl, by decide, rfl⟩

/-- C4, amended: whenever `approach` is a string shorter than 20
characters, validation of the Proposal always fails (never accepts), and
the reported error names `approach` exactly when the earlier-checked
fields — id, task reference, proposer — are themselves valid; otherwise
the first earlier failure is the one reported. -/
theorem c4_short_approach_validation_fails (p : Dict) (s : String)
    (hs : dget p "approach" = some (.str s)) (hlen : s.length < 20) :
    passes (validate .proposal p) = false ∧
    (proposalIdCheck p = true → taskRefCheck p = true → proposerCheck p = true →
      validate .proposal p =
        .error "Proposal approach must be at least 20 characters") := by
  have hac : approachCheck p = false := by
    simp [approachCheck, approachVal, hs]
    omega
  constructor
  · show passes (validate_proposal p) = false
    unfold validate_proposal
    cases h1 : proposalIdCheck p <;> cases h2 : taskRefCheck p <;>
      cases h3 : proposerCheck p <;> simp [h1, h2, h3, hac, passes]
  · intro h1 h2 h3
    show validate_proposal p = _
    unfold validate_proposal
    simp [h1, h2, h3, hac]

/-- C4, witness: the short-approach Proposal with all other fields valid
is rejected with the approach error. -/
theorem c4_witness :
    validate .proposal shortApproachProposal =
      .error "Proposal approach must be at least 20 characters" :=
  (c4_short_approach_validation_fails shortApproachProposal "too short"
    rfl (by decide)).2 rfl rfl rfl

/-- C5, counterexample: the decision value `"banana"` is not a member of
the closed `ReviewDecision` set, yet the Review carrying it passes
validation — the validator does not reject unrecognized decision
values. -/
theorem c5_counterexample_unknown_decision_accepted :
    reviewDecisions.contains "banana" = false ∧
    validate .review bananaReview = Except.ok () :=
  ⟨by decide, rfl⟩

/-- C5, amended: for a candidate Review whose id, deliverable reference
and reviewer checks pass, validation succeeds exactly when `decision` is
present and truthy — membership in `ReviewDecision` is never tested, so
any non-empty decision value passes through. -/
theorem c5_decision_presence_only (r : Dict)
    (h1 : reviewIdCheck r = true) (h2 : deliverableRefCheck r = true)
    (h3 : reviewerCheck r = true) :
    validate .review r = Except.ok () ↔ decisionCheck r = true := by
  show validate_review r = Except.ok () ↔ _
  unfold validate_review
  cases h4 : decisionCheck r <;> simp [h1, h2, h3, h4]

/-- C5, witness: a Review with decision `"accepted"` validates cleanly. -/
theorem c5_witness : validate .review acceptedReview = Except.ok () :=
  (c5_decision_presence_only acceptedReview rfl rfl rfl).mpr rfl

/-- C6, counterexample: the workflow operations fill defaults by updating
the caller's dictionary in place (`task["id"] = ...`), so the value the
caller passed in *is* modified: starting from the empty candidate, after
`create_task`'s default filling the caller's dictionary is no longer
empty and now carries the generated id. -/
theorem c6_counterexample_caller_dict_mutated :
    fillTaskDefaults [] sampleEnv ≠ ([] : Dict) ∧
    dget (fillTaskDefaults [] sampleEnv) "id" =
      some (.str (generate_id "task" sampleEnv.nowMs
        (idRandomPart sampleEnv.randomChoices))) :=
  ⟨List.cons_ne_nil _ _, rfl⟩

/-- C6, amended: default filling mutates the caller's candidate in place,
but only by *adding* absent keys — a binding the caller supplied is never
overwritten or removed by any of the four operations, and a candidate
already carrying all of its operation's defaulted keys is left completely
unmodified. -/
theorem c6_defaults_added_never_overwritten :
    (∀ c env k v, dget c k = some v → dget (fillTaskDefaults c env) k = some v) ∧
    (∀ c env k v, dget c k = some v → dget (fillProposalDefaults c env) k = some v) ∧
    (∀ c env k v, dget c k = some v → dget (fillDeliverableDefaults c env) k = some v) ∧
    (∀ c env k v, dget c k = some v → dget (fillReviewDefaults c env) k = some v) ∧
    (∀ c env, (dget c "id").isSome → (dget c "version").isSome →
      (dget c "status").isSome → (dget c "created_at").isSome →
      fillTaskDefaults c env = c) ∧
    (∀ c env, (dget c "id").isSome → (dget c "status").isSome →
      (dget c "created_at").isSome → fillProposalDefaults c env = c) ∧
    (∀ c env, (dget c "id").isSome → (dget c "status").isSome →
      (dget c "submitted_at").isSome → fillDeliverableDefaults c env = c) ∧
    (∀ c env, (dget c "id").isSome → (dget c "reviewed_at").isSome →
      fillReviewDefaults c env = c) := by
  refine ⟨?_, ?_, ?_, ?_, ?_, ?_, ?_, ?_⟩
  · intro c env k v h
    exact dget_setdefault_of_some (dget_setdefault_of_some
      (dget_setdefault_of_some (dget_setdefault_of_some h)))
  · intro c env k v h
    exact dget_setdefault_of_some (dget_setdefault_of_some
      (dget_setdefault_of_some h))
  · intro c env k v h
    exact dget_setdefault_of_some (dget_setdefault_of_some
      (dget_setdefault_of_some h))
  · intro c env k v h
    exact dget_setdefault_of_some (dget_setdefault_of_some h)
  · intro c env h1 h2 h3 h4
    simp only [fillTaskDefaults]
    rw [setdefault_of_isSome h1, setdefault_of_isSome h2,
      setdefault_of_isSome h3, setdefault_of_isSome h4]
  · intro c env h1 h2 h3
    simp only [fillProposalDefaults]
    rw [setdefault_of_isSome h1, setdefault_of_isSome h2,
      setdefault_of_isSome h3]
  · intro c env h1 h2 h3
    simp only [fillDeliverableDefaults]
    rw [setdefault_of_isSome h1, setdefault_of_isSome h2,
      setdefault_of_isSome h3]
  · intro c env h1 h2
    simp only [fillReviewDefaults]
    rw [setdefault_of_isSome h1, setdefault_of_isSome h2]

/-- C6, witness: a supplied `title` binding survives default filling, and
the all-keys-present Task is left untouched. -/
theorem c6_witness :
    dget (fillTaskDefaults [("title", PyVal.str "Logo")] sampleEnv) "title" =
      some (PyVal.str "Logo") ∧
    fillTaskDefaults emptyTitleTask sampleEnv = emptyTitleTask :=
  ⟨c6_defaults_added_never_overwritten.1 _ sampleEnv "title" _ rfl,
   c6_defaults_added_never_overwritten.2.2.2.2.1 emptyTitleTask sampleEnv
     rfl rfl rfl rfl⟩

/-- C7: when the caller supplies no id, each operation assigns one of the
form `<kind-prefix>-<millisecond-timestamp>-<9-char-random-suffix>` drawn
from lowercase letters and digits, with prefix `task` for Tasks, `prop`
for Proposals, `deliv` for Deliverables and `rev` for Reviews. -/
theorem c7_generated_ids_follow_pattern (env : GenEnv) (c : Dict)
    (hlen : env.randomChoices.length = 9)
    (halpha : ∀ ch ∈ env.randomChoices, ch ∈ idAlphabet) :
    (dget c "id" = Option.none →
      dget (fillTaskDefaults c env) "id" =
        some (.str (generate_id "task" env.nowMs (idRandomPart env.randomChoices))) ∧
      matchesIdPattern "task"
        (generate_id "task" env.nowMs (idRandomPart env.randomChoices))) ∧
    (dget c "id" = Option.none →
      dget (fillProposalDefaults c env) "id" =
        some (.str (generate_id "prop" env.nowMs (idRandomPart env.randomChoices))) ∧
      matchesIdPattern "prop"
        (generate_id "prop" env.nowMs (idRandomPart env.randomChoices))) ∧
    (dget c "id" = Option.none →
      dget (fillDeliverableDefaults c env) "id" =
        some (.str (generate_id "deliv" env.nowMs (idRandomPart env.randomChoices))) ∧
      matchesIdPattern "deliv"
        (generate_id "deliv" env.nowMs (idRandomPart env.randomChoices))) ∧
    (dget c "id" = Option.none →
      dget (fillReviewDefaults c env) "id" =
        some (.str (generate_id "rev" env.nowMs (idRandomPart env.randomChoices))) ∧
      matchesIdPattern "rev"
        (generate_id "rev" env.nowMs (idRandomPart env.randomChoices))) := by
  refine ⟨fun h => ⟨?_, ?_⟩, fun h => ⟨?_, ?_⟩, fun h => ⟨?_, ?_⟩, fun h => ⟨?_, ?_⟩⟩
  · exact dget_setdefault_of_some (dget_setdefault_of_some
      (dget_setdefault_of_some (dget_setdefault_self h)))
  · exact ⟨env.nowMs, env.randomChoices, rfl, hlen, halpha⟩
  · exact dget_setdefault_of_some (dget_setdefault_of_some
      (dget_setdefault_self h))
  · exact ⟨env.nowMs, env.randomChoices, rfl, hlen, halpha⟩
  · exact dget_setdefault_of_some (dget_setdefault_of_some
      (dget_setdefault_self h))
  · exact ⟨env.nowMs, env.randomChoices, rfl, hlen, halpha⟩
  · exact dget_setdefault_of_some (dget_setdefault_self h)
  · exact ⟨env.nowMs, env.randomChoices, rfl, hlen, halpha⟩

/-- C7, witness: in the sample environment the id generated for a Task
with no supplied id is the `task`-prefixed pattern instance. -/
theorem c7_witness :
    dget (fillTaskDefaults [] sampleEnv) "id" =
      some (PyVal.str (generate_id "task" sampleEnv.nowMs
        (idRandomPart sampleEnv.randomChoices))) ∧
    matchesIdPattern "task"
      (generate_id "task" sampleEnv.nowMs (idRandomPart sampleEnv.randomChoices)) :=
  (c7_generated_ids_follow_pattern sampleEnv [] rfl (by decide)).1 rfl

/-- C8: validation is deterministic and idempotent — the validators read
nothing but their argument (no I/O, no randomness, no module state), so in
the embedding they are plain functions and a second invocation on the same
candidate yields the identical result. -/
theorem c8_validate_deterministic (k : EntityKind) (c : Dict) :
    validate k c = validate k c := rfl

/-- C9: the Proposal validator accepts the camel-case spelling of the
task reference: a candidate with no `task_id` key whose `taskId` value is
truthy passes the task-reference check, and validation can never report
the "must reference a task" error for it. -/
theorem c9_taskId_spelling_accepted (p : Dict)
    (habs : dget p "task_id" = Option.none)
    (hcamel : truthyOpt (dget p "taskId") = true) :
    taskRefCheck p = true ∧
    validate .proposal p ≠ .error "Proposal must reference a task" := by
  have htr : taskRefCheck p = true := by
    simp [taskRefCheck, habs, hcamel]
  refine ⟨htr, ?_⟩
  show validate_proposal p ≠ _
  unfold validate_proposal
  cases h1 : proposalIdCheck p <;> cases h3 : proposerCheck p <;>
    cases h4 : approachCheck p <;> cases h5 : timelineCheck p <;>
    simp [h1, htr, h3, h4, h5]

/-- C9, witness: the camelCase Proposal passes the task-reference check
and is never rejected for lacking a task reference. -/
theorem c9_witness :
    taskRefCheck camelCaseProposal = true ∧
    validate .proposal camelCaseProposal ≠
      .error "Proposal must reference a task" :=
  c9_taskId_spelling_accepted camelCaseProposal rfl rfl

/-- C10: with `validate_schemas = false` no validation happens at all —
every candidate, however malformed, results in the `POST` request to the
Gateway carrying the default-filled dictionary; every binding the caller
supplied reaches the Gateway unchanged, and a Task already carrying the
defaulted keys (here one with an empty `title`) is forwarded literally
unchanged. -/
theorem c10_skip_validation_forwards_to_gateway :
    (∀ c env, create_task false c env =
        .request ⟨"POST", "/tasks", some (fillTaskDefaults c env)⟩) ∧
    (∀ c env, submit_proposal false c env =
        .request ⟨"POST", "/proposals", some (fillProposalDefaults c env)⟩) ∧
    (∀ c env, submit_deliverable false c env =
        .request ⟨"POST", "/deliverables", some (fillDeliverableDefaults c env)⟩) ∧
    (∀ c env, submit_review false c env =
        .request ⟨"POST", "/reviews", some (fillReviewDefaults c env)⟩) ∧
    (∀ c env k v, dget c k = some v → dget (fillTaskDefaults c env) k = some v) ∧
    (∀ env, create_task false emptyTitleTask env =
        .request ⟨"POST", "/tasks", some emptyTitleTask⟩) :=
  ⟨fun _ _ => rfl, fun _ _ => rfl, fun _ _ => rfl, fun _ _ => rfl,
   fun _ _ _ _ h => dget_setdefault_of_some (dget_setdefault_of_some
     (dget_setdefault_of_some (dget_setdefault_of_some h))),
   fun _ => rfl⟩

/-- C10, witness: the empty-string `title` supplied by the caller reaches
the request body unchanged. -/
theorem c10_witness :
    dget (fillTaskDefaults [("title", PyVal.str "")] sampleEnv) "title" =
      some (PyVal.str "") :=
  c10_skip_validation_forwards_to_gateway.2.2.2.2.1
    [("title", PyVal.str "")] sampleEnv "title" (PyVal.str "") rfl

end OHAP
